import Mathlib

/-!
# Lessee Risk Intelligence — verification of the risk engine

Shallow embedding of the risk scoring and aggregation engine:

* `src/lib/risk-model.ts` — score normalizer, bucket mapping, configuration;
* `src/lib/risk-aggregator.ts` — `calculateAirlineRisk` (weight renormalization,
  missing-data tolerance, error propagation);
* `src/lib/sources/financial.ts` / `financialApi.ts` — `computeFinancialRisk`
  and the mock fundamentals table;
* `src/unnamed/part_005` — multi-currency `calculatePortfolioRisk` (per-currency
  grouping, concentration penalty, bucket);
* `src/unnamed/part_000` — `calculateScenarioRisk` (what-if override, filter,
  same per-currency formula).

Numbers are embedded as rationals (`ℚ`): every arithmetic expression the
claims touch is exact at the inputs considered (divisions are guarded by
`> 0` tests in the source), so `ℚ` agrees with IEEE doubles on all boundary
facts proved here.  JavaScript `Math.round` is `⌊x + 1/2⌋` (ties toward +∞),
`Math.min`/`Math.max` are `min`/`max` on finite inputs.  The one place where
IEEE special values matter — division by zero inside `normalizeScore` — is
embedded with an explicit JS-number type (`JsNum`) carrying `NaN` and the
infinities, so the silent-`NaN` behaviour is captured faithfully.
Timestamps (`calculatedAt`/`expiresAt`) and database access are outside the
embedded engine and are omitted.
-/

/-! ## JavaScript numeric helpers -/

/-- JavaScript `Math.round`: round half toward positive infinity. -/
def jsRound (x : ℚ) : ℤ := ⌊x + 1/2⌋

/-- `Math.round(x * 10) / 10` — round to one decimal place. -/
def round1 (x : ℚ) : ℚ := (jsRound (x * 10) : ℚ) / 10

/-- `Math.round(x * 100) / 100` — round to two decimal places. -/
def round2 (x : ℚ) : ℚ := (jsRound (x * 100) : ℚ) / 100

/-- `Math.round(x * 1000) / 1000` — round to three decimal places. -/
def round3 (x : ℚ) : ℚ := (jsRound (x * 1000) : ℚ) / 1000

/-! ## `src/lib/risk-model.ts` (current version, bucket thresholds 40/70) -/

/-- `RiskBucket = 'Low' | 'Medium' | 'High'`. -/
inductive RiskBucket where
  | low
  | medium
  | high
deriving DecidableEq, Repr

/-- `ConfidenceLevel = 'HIGH' | 'MEDIUM' | 'LOW'`. -/
inductive ConfidenceLevel where
  | high
  | medium
  | low
deriving DecidableEq, Repr

/-- `RiskConfig.bucketThresholds`; the cache-duration field of `RiskConfig`
only feeds the omitted timestamps. -/
structure RiskConfig where
  lowMax : ℚ
  mediumMax : ℚ
deriving DecidableEq, Repr

/-- `DEFAULT_RISK_CONFIG.bucketThresholds = { lowMax: 40, mediumMax: 70 }`. -/
def DEFAULT_RISK_CONFIG : RiskConfig := { lowMax := 40, mediumMax := 70 }

/-- `scoreToRiskBucket` from `src/lib/risk-model.ts`. -/
def scoreToRiskBucket (score : ℚ) (config : RiskConfig := DEFAULT_RISK_CONFIG) :
    RiskBucket :=
  if score ≤ config.lowMax then .low
  else if score ≤ config.mediumMax then .medium
  else .high

/-! ### JS numbers with the IEEE special values, for `normalizeScore`

`normalizeScore` divides by `max - min` without a guard, so its embedding
must carry `NaN` and the infinities.  No signed zero is modelled: the only
zero reachable in `normalizeScore` is `max - min = 0`, and JS `x / 0` with
positive zero is the case implemented below. -/

/-- A JavaScript number: finite rational, `NaN`, or an infinity. -/
inductive JsNum where
  | nan
  | posInf
  | negInf
  | fin (q : ℚ)
deriving DecidableEq, Repr

namespace JsNum

/-- JS subtraction. -/
def sub : JsNum → JsNum → JsNum
  | nan, _ => nan
  | _, nan => nan
  | posInf, posInf => nan
  | posInf, _ => posInf
  | negInf, negInf => nan
  | negInf, _ => negInf
  | fin _, posInf => negInf
  | fin _, negInf => posInf
  | fin a, fin b => fin (a - b)

/-- JS multiplication. -/
def mul : JsNum → JsNum → JsNum
  | nan, _ => nan
  | _, nan => nan
  | posInf, posInf => posInf
  | posInf, negInf => negInf
  | posInf, fin b => if b = 0 then nan else if 0 < b then posInf else negInf
  | negInf, posInf => negInf
  | negInf, negInf => posInf
  | negInf, fin b => if b = 0 then nan else if 0 < b then negInf else posInf
  | fin a, posInf => if a = 0 then nan else if 0 < a then posInf else negInf
  | fin a, negInf => if a = 0 then nan else if 0 < a then negInf else posInf
  | fin a, fin b => fin (a * b)

/-- JS division (divisor zero is the positive zero). -/
def div : JsNum → JsNum → JsNum
  | nan, _ => nan
  | _, nan => nan
  | posInf, posInf => nan
  | posInf, negInf => nan
  | negInf, posInf => nan
  | negInf, negInf => nan
  | posInf, fin b => if 0 ≤ b then posInf else negInf
  | negInf, fin b => if 0 ≤ b then negInf else posInf
  | fin _, posInf => fin 0
  | fin _, negInf => fin 0
  | fin a, fin b =>
      if b = 0 then (if a = 0 then nan else if 0 < a then posInf else negInf)
      else fin (a / b)

/-- JS `Math.min` (any `NaN` argument contaminates). -/
def jmin : JsNum → JsNum → JsNum
  | nan, _ => nan
  | _, nan => nan
  | negInf, _ => negInf
  | _, negInf => negInf
  | posInf, b => b
  | a, posInf => a
  | fin a, fin b => fin (min a b)

/-- JS `Math.max` (any `NaN` argument contaminates). -/
def jmax : JsNum → JsNum → JsNum
  | nan, _ => nan
  | _, nan => nan
  | posInf, _ => posInf
  | _, posInf => posInf
  | negInf, b => b
  | a, negInf => a
  | fin a, fin b => fin (max a b)

end JsNum

/-- `normalizeScore` from `src/lib/risk-model.ts`:
`Math.max(0, Math.min(100, ((value - min) / (max - min)) * 100))`, optionally
inverted to `100 - x`.  Finite arguments, JS arithmetic; no guard on
`min == max` exists in the source and nothing is thrown. -/
def normalizeScore (value min max : ℚ) (invert : Bool := false) : JsNum :=
  let normalized :=
    JsNum.jmax (.fin 0)
      (JsNum.jmin (.fin 100)
        (JsNum.mul
          (JsNum.div (JsNum.sub (.fin value) (.fin min))
            (JsNum.sub (.fin max) (.fin min)))
          (.fin 100)))
  if invert then JsNum.sub (.fin 100) normalized else normalized

/-! ## `src/lib/sources/financialApi.ts` — fundamentals and mock table -/

/-- `FinancialFundamentals` from `src/lib/sources/financialApi.ts`. -/
structure FinancialFundamentals where
  ticker : String
  companyName : String
  totalDebt : ℚ
  totalEquity : ℚ
  cash : ℚ
  revenue : ℚ
  netIncome : ℚ
  debtToEquity : ℚ
  profitMargin : ℚ
  cashToDebt : ℚ
  currency : String
  fiscalYear : String
  dataSource : String
deriving DecidableEq, Repr

/-- One row of the `mockData` table inside `getMockFinancialData`
(everything except `ticker` and `dataSource`, which the function attaches). -/
structure MockFinancialRow where
  companyName : String
  totalDebt : ℚ
  totalEquity : ℚ
  cash : ℚ
  revenue : ℚ
  netIncome : ℚ
  debtToEquity : ℚ
  profitMargin : ℚ
  cashToDebt : ℚ
  currency : String
  fiscalYear : String
deriving DecidableEq, Repr

/-- The `mockData` lookup table of `getMockFinancialData`, keyed by ticker. -/
def mockFinancialTable : List (String × MockFinancialRow) :=
  [ ("AAL", { companyName := "American Airlines Group Inc.",
              totalDebt := 42000000000, totalEquity := 8000000000,
              cash := 12000000000, revenue := 52000000000,
              netIncome := 1500000000, debtToEquity := 5.25,
              profitMargin := 2.88, cashToDebt := 0.29,
              currency := "USD", fiscalYear := "2024" }),
    ("UAL", { companyName := "United Airlines Holdings Inc.",
              totalDebt := 36000000000, totalEquity := 12000000000,
              cash := 14000000000, revenue := 53000000000,
              netIncome := 2800000000, debtToEquity := 3.0,
              profitMargin := 5.28, cashToDebt := 0.39,
              currency := "USD", fiscalYear := "2024" }),
    ("DAL", { companyName := "Delta Air Lines Inc.",
              totalDebt := 28000000000, totalEquity := 15000000000,
              cash := 4000000000, revenue := 58000000000,
              netIncome := 4600000000, debtToEquity := 1.87,
              profitMargin := 7.93, cashToDebt := 0.14,
              currency := "USD", fiscalYear := "2024" }),
    ("LUV", { companyName := "Southwest Airlines Co.",
              totalDebt := 9000000000, totalEquity := 12000000000,
              cash := 13000000000, revenue := 27000000000,
              netIncome := 500000000, debtToEquity := 0.75,
              profitMargin := 1.85, cashToDebt := 1.44,
              currency := "USD", fiscalYear := "2024" }),
    ("JBLU", { companyName := "JetBlue Airways Corporation",
               totalDebt := 6000000000, totalEquity := 3000000000,
               cash := 2000000000, revenue := 10000000000,
               netIncome := -200000000, debtToEquity := 2.0,
               profitMargin := -2.0, cashToDebt := 0.33,
               currency := "USD", fiscalYear := "2024" }),
    ("AF.PA", { companyName := "Air France-KLM SA",
                totalDebt := 18000000000, totalEquity := 6000000000,
                cash := 8000000000, revenue := 32000000000,
                netIncome := 900000000, debtToEquity := 3.0,
                profitMargin := 2.81, cashToDebt := 0.44,
                currency := "EUR", fiscalYear := "2024" }),
    ("IAG.L", { companyName := "International Consolidated Airlines Group SA",
                totalDebt := 14000000000, totalEquity := 8000000000,
                cash := 12000000000, revenue := 31000000000,
                netIncome := 2400000000, debtToEquity := 1.75,
                profitMargin := 7.74, cashToDebt := 0.86,
                currency := "EUR", fiscalYear := "2024" }),
    ("LHA.DE", { companyName := "Deutsche Lufthansa AG",
                 totalDebt := 16000000000, totalEquity := 10000000000,
                 cash := 9000000000, revenue := 40000000000,
                 netIncome := 1800000000, debtToEquity := 1.6,
                 profitMargin := 4.5, cashToDebt := 0.56,
                 currency := "EUR", fiscalYear := "2024" }),
    ("RYA.L", { companyName := "Ryanair Holdings plc",
                totalDebt := 4000000000, totalEquity := 8000000000,
                cash := 5000000000, revenue := 13000000000,
                netIncome := 1900000000, debtToEquity := 0.5,
                profitMargin := 14.62, cashToDebt := 1.25,
                currency := "EUR", fiscalYear := "2024" }),
    ("EZJ.L", { companyName := "easyJet plc",
                totalDebt := 3000000000, totalEquity := 4000000000,
                cash := 2500000000, revenue := 9000000000,
                netIncome := 600000000, debtToEquity := 0.75,
                profitMargin := 6.67, cashToDebt := 0.83,
                currency := "GBP", fiscalYear := "2024" }),
    ("C6L.SI", { companyName := "Singapore Airlines Limited",
                 totalDebt := 12000000000, totalEquity := 20000000000,
                 cash := 15000000000, revenue := 19000000000,
                 netIncome := 2800000000, debtToEquity := 0.6,
                 profitMargin := 14.74, cashToDebt := 1.25,
                 currency := "SGD", fiscalYear := "2024" }),
    ("0293.HK", { companyName := "Cathay Pacific Airways Limited",
                  totalDebt := 8000000000, totalEquity := 5000000000,
                  cash := 6000000000, revenue := 12000000000,
                  netIncome := 400000000, debtToEquity := 1.6,
                  profitMargin := 3.33, cashToDebt := 0.75,
                  currency := "HKD", fiscalYear := "2024" }),
    ("9201.T", { companyName := "Japan Airlines Co., Ltd.",
                 totalDebt := 6000000000, totalEquity := 8000000000,
                 cash := 5000000000, revenue := 15000000000,
                 netIncome := 1200000000, debtToEquity := 0.75,
                 profitMargin := 8.0, cashToDebt := 0.83,
                 currency := "JPY", fiscalYear := "2024" }),
    ("9202.T", { companyName := "ANA Holdings Inc.",
                 totalDebt := 10000000000, totalEquity := 7000000000,
                 cash := 6000000000, revenue := 18000000000,
                 netIncome := 800000000, debtToEquity := 1.43,
                 profitMargin := 4.44, cashToDebt := 0.6,
                 currency := "JPY", fiscalYear := "2024" }),
    ("AC.TO", { companyName := "Air Canada",
                totalDebt := 8000000000, totalEquity := 5000000000,
                cash := 7000000000, revenue := 22000000000,
                netIncome := 1500000000, debtToEquity := 1.6,
                profitMargin := 6.82, cashToDebt := 0.88,
                currency := "CAD", fiscalYear := "2024" }),
    ("QAN.AX", { companyName := "Qantas Airways Limited",
                 totalDebt := 5000000000, totalEquity := 6000000000,
                 cash := 4000000000, revenue := 16000000000,
                 netIncome := 2000000000, debtToEquity := 0.83,
                 profitMargin := 12.5, cashToDebt := 0.8,
                 currency := "AUD", fiscalYear := "2024" }) ]

/-- `ticker.toUpperCase()` (character-wise ASCII upper-casing). -/
def jsToUpperCase (s : String) : String := ⟨s.data.map Char.toUpper⟩

/-- `getMockFinancialData` from `src/lib/sources/financialApi.ts`:
look up `ticker.toUpperCase()` in the table, `null` when absent, otherwise
attach the original `ticker` and `dataSource: 'mock'`. -/
def getMockFinancialData (ticker : String) : Option FinancialFundamentals :=
  match mockFinancialTable.lookup (jsToUpperCase ticker) with
  | none => none
  | some d =>
      some { ticker := ticker, companyName := d.companyName,
             totalDebt := d.totalDebt, totalEquity := d.totalEquity,
             cash := d.cash, revenue := d.revenue, netIncome := d.netIncome,
             debtToEquity := d.debtToEquity, profitMargin := d.profitMargin,
             cashToDebt := d.cashToDebt, currency := d.currency,
             fiscalYear := d.fiscalYear, dataSource := "mock" }

/-! ## `src/lib/sources/financial.ts` — financial risk score -/

/-- `computeFinancialRisk` from `src/lib/sources/financial.ts`: three banded
sub-scores blended `0.4·debt + 0.4·profit + 0.2·liquidity`, clamped to
`[0,100]` and rounded to one decimal. -/
def computeFinancialRisk (fundamentals : FinancialFundamentals) : ℚ :=
  let debtToEquity := fundamentals.debtToEquity
  let profitMargin := fundamentals.profitMargin
  let cashToDebt := fundamentals.cashToDebt
  let debtRisk : ℚ :=
    if debtToEquity < 1 then 0
    else if debtToEquity < 2 then 20
    else if debtToEquity < 3 then 40
    else if debtToEquity < 5 then 70
    else min 100 (90 + (debtToEquity - 5) * 5)
  let profitRisk : ℚ :=
    if profitMargin < 0 then min 100 (80 + |profitMargin| * 5)
    else if profitMargin < 2 then 60 - profitMargin * 10
    else if profitMargin < 5 then 40 - (profitMargin - 2) * 6.67
    else if profitMargin < 10 then 20 - (profitMargin - 5) * 3
    else max 0 (5 - (profitMargin - 10) * 0.5)
  let liquidityRisk : ℚ :=
    if cashToDebt ≥ 1.0 then 0
    else if cashToDebt ≥ 0.5 then 20
    else if cashToDebt ≥ 0.3 then 40
    else if cashToDebt ≥ 0.1 then 70
    else 90
  let overallRisk := debtRisk * 0.4 + profitRisk * 0.4 + liquidityRisk * 0.2
  round1 (max 0 (min 100 overallRisk))

/-! ## `src/lib/risk-aggregator.ts` — `calculateAirlineRisk`

The aggregator iterates over the enabled risk sources (`enabledRiskSources`),
awaiting each `source.calculate(context)` sequentially.  The embedding is
parameterised over the list of sources: a source is its configuration record
plus its `calculate` function, and a `calculate` call either returns a
`ComponentScore` or throws, which `Except` captures.  The error type has a
constructor for the raw JavaScript exception; the `evaluatorFailure`
constructor exists only to state the spec's error taxonomy (an
`EvaluatorFailure` wrapper naming the failing dimension) — no such wrapper
exists anywhere in `src/`, which is exactly what the theorems establish. -/

/-- `RiskDimensionKey` from `src/lib/risk-model.ts`. -/
inductive RiskDimensionKey where
  | jurisdiction
  | scale
  | assetLiquidity
  | financial
  | news
deriving DecidableEq, Repr

/-- Evaluator metadata: a key-value record (`Record<string, any>` narrowed to
string values; the aggregator and the claims only ever pass it around). -/
def MetaData := List (String × String)
deriving DecidableEq, Repr

/-- `ComponentScore` from `src/lib/risk-model.ts`: `score: number | null`. -/
structure ComponentScore where
  score : Option ℚ
  confidence : ConfidenceLevel
  metadata : Option MetaData := none
deriving DecidableEq, Repr

/-- `RiskContext` from `src/lib/risk-model.ts` (the fields the engine touches;
`financialData` is typed as the metadata record the aggregator back-fills). -/
structure RiskContext where
  icao : String
  name : String
  country : String
  active : Bool
  fleetSize : Option ℚ := none
  ticker : Option String := none
  financialData : Option MetaData := none
deriving DecidableEq, Repr

/-- A thrown value escaping an evaluator.  `js` is the raw JavaScript
exception.  Modelled from the spec: `evaluatorFailure` is the spec's
`EvaluatorFailure` taxonomy entry, naming the failing evaluator key; it is
absent from `src/` and the code embedding never constructs it. -/
inductive EvalError where
  | js (message : String)
  | evaluatorFailure (key : RiskDimensionKey)
deriving DecidableEq, Repr

/-- A risk source (`RiskSource` interface): configuration plus `calculate`. -/
structure RiskSourceSpec where
  key : RiskDimensionKey
  name : String
  enabled : Bool
  weight : ℚ
  calculate : RiskContext → Except EvalError ComponentScore

/-- One entry of `RiskResult.breakdown`. -/
structure BreakdownEntry where
  key : RiskDimensionKey
  name : String
  score : Option ℚ
  confidence : ConfidenceLevel
  weight : ℚ
  effectiveWeight : ℚ
deriving DecidableEq, Repr

/-- The aggregation loop's mutable locals in `calculateAirlineRisk`. -/
structure AggState where
  ctx : RiskContext
  components : List (RiskDimensionKey × ComponentScore)
  breakdown : List BreakdownEntry
  missingComponents : List String
  totalWeightedScore : ℚ
  totalWeight : ℚ
  totalAvailableWeight : ℚ
deriving DecidableEq, Repr

/-- Initial loop state for a given context. -/
def initAggState (context : RiskContext) : AggState :=
  { ctx := context, components := [], breakdown := [],
    missingComponents := [], totalWeightedScore := 0, totalWeight := 0,
    totalAvailableWeight := 0 }

/-- `allComponents[source.key] = componentScore` followed by the financial
metadata back-fill: `if (source.key === 'financial' && componentScore.metadata)
context.financialData = componentScore.metadata`. -/
def recordComponent (st : AggState) (source : RiskSourceSpec)
    (componentScore : ComponentScore) : AggState :=
  let st := { st with components := st.components ++ [(source.key, componentScore)] }
  if source.key = .financial ∧ componentScore.metadata ≠ none then
    { st with ctx := { st.ctx with financialData := componentScore.metadata } }
  else st

/-- The `null`-score branch of the loop body: push the missing component's
display name and a breakdown entry with `effectiveWeight: 0`. -/
def recordMissing (st : AggState) (source : RiskSourceSpec)
    (componentScore : ComponentScore) : AggState :=
  { st with
    missingComponents := st.missingComponents ++ [source.name],
    breakdown := st.breakdown ++
      [{ key := source.key, name := source.name, score := none,
         confidence := componentScore.confidence,
         weight := source.weight, effectiveWeight := 0 }] }

/-- The available branch of the loop body: accumulate the weighted score and
push a breakdown entry with `effectiveWeight` initialised to the weight. -/
def recordAvailable (st : AggState) (source : RiskSourceSpec)
    (componentScore : ComponentScore) (s : ℚ) : AggState :=
  { st with
    totalWeightedScore := st.totalWeightedScore + s * source.weight,
    totalWeight := st.totalWeight + source.weight,
    totalAvailableWeight := st.totalAvailableWeight + source.weight,
    breakdown := st.breakdown ++
      [{ key := source.key, name := source.name, score := some s,
         confidence := componentScore.confidence,
         weight := source.weight,
         effectiveWeight := source.weight }] }

/-- One iteration of the `for (const source of enabledRiskSources)` loop in
`calculateAirlineRisk`: skip disabled sources, await `source.calculate`
(letting a throw escape), store the component, back-fill financial metadata
into the context, then either record a missing component or accumulate the
weighted score. -/
def aggStep (st : AggState) (source : RiskSourceSpec) : Except EvalError AggState :=
  if ¬source.enabled then .ok st
  else
    match source.calculate st.ctx with
    | .error e => .error e
    | .ok componentScore =>
        let st := recordComponent st source componentScore
        match componentScore.score with
        | none => .ok (recordMissing st source componentScore)
        | some s => .ok (recordAvailable st source componentScore s)

/-- The whole aggregation loop (sequential, first throw escapes). -/
def aggLoop : AggState → List RiskSourceSpec → Except EvalError AggState
  | st, [] => .ok st
  | st, source :: rest =>
      match aggStep st source with
      | .error e => .error e
      | .ok st' => aggLoop st' rest

/-- `RiskResult` as produced by `calculateAirlineRisk` (timestamps omitted). -/
structure RiskResultPure where
  overallScore : ℚ
  riskBucket : RiskBucket
  components : List (RiskDimensionKey × ComponentScore)
  breakdown : List BreakdownEntry
  context : RiskContext
  missingComponents : Option (List String)
  reweighted : Option Bool
deriving DecidableEq, Repr

/-- `calculateAirlineRisk` from `src/lib/risk-aggregator.ts`, parameterised
over the source list: run the loop, reweight available breakdown entries when
`0 < totalAvailableWeight < 1` (the `item.effectiveWeight` truthiness test of
the source is the `≠ 0` condition), compute the weighted average (default 50
when nothing is available), round to one decimal, and bucket the unrounded
score. -/
def calculateAirlineRisk (context : RiskContext) (sources : List RiskSourceSpec)
    (config : RiskConfig := DEFAULT_RISK_CONFIG) :
    Except EvalError RiskResultPure :=
  match aggLoop (initAggState context) sources with
  | .error e => .error e
  | .ok st =>
      let reweighted := st.totalAvailableWeight < 1 ∧ st.totalAvailableWeight > 0
      let breakdown :=
        if reweighted then
          st.breakdown.map fun item =>
            if item.score ≠ none ∧ item.effectiveWeight ≠ 0 then
              { item with effectiveWeight := item.weight / st.totalAvailableWeight }
            else item
        else st.breakdown
      let overallScore :=
        if st.totalAvailableWeight > 0 then
          st.totalWeightedScore / st.totalAvailableWeight
        else 50
      .ok { overallScore := round1 overallScore,
            riskBucket := scoreToRiskBucket overallScore config,
            components := st.components,
            breakdown := breakdown,
            context := st.ctx,
            missingComponents :=
              if st.missingComponents.length > 0 then some st.missingComponents else none,
            reweighted := if reweighted then some true else none }

/-! ## `src/unnamed/part_000` — `calculateScenarioRisk` -/

/-- `ExposureRow` from the scenario module. -/
structure ExposureRow where
  airlineIcao : String
  airlineName : String
  airlineCountry : String
  exposure : ℚ
  risk : ℚ
  riskBucket : String
deriving DecidableEq, Repr

/-- The optional `modification` of a `ScenarioInput`. -/
structure ScenarioModification where
  airlineIcao : String
  newExposure : ℚ
deriving DecidableEq, Repr

/-- `ScenarioInput` from the scenario module. -/
structure ScenarioInput where
  exposures : List ExposureRow
  currency : String
  modification : Option ScenarioModification := none
deriving DecidableEq, Repr

/-- One ranked entry of `ScenarioResult.topExposures`. -/
structure TopExposure where
  airlineIcao : String
  airlineName : String
  exposure : ℚ
  exposureShare : ℚ
  risk : ℚ
  riskBucket : String
deriving DecidableEq, Repr

/-- `ScenarioResult` from the scenario module. -/
structure ScenarioResult where
  totalExposure : ℚ
  baseRisk : ℚ
  adjustedRisk : ℚ
  concentrationPenalty : ℚ
  maxConcentration : ℚ
  riskBucket : RiskBucket
  topExposures : List TopExposure
deriving DecidableEq, Repr

/-- The early-return value of `calculateScenarioRisk` when no exposures
remain after filtering. -/
def zeroScenarioResult : ScenarioResult :=
  { totalExposure := 0, baseRisk := 0, adjustedRisk := 0,
    concentrationPenalty := 0, maxConcentration := 0, riskBucket := .low,
    topExposures := [] }

/-- The modification step of `calculateScenarioRisk`: `findIndex` of the
first row whose `airlineIcao` matches, replaced (in the copied array) by a
spread copy with the overridden `exposure`; a miss is a no-op.  Written as
the equivalent structural recursion on the row list. -/
def overrideFirst (m : ScenarioModification) : List ExposureRow → List ExposureRow
  | [] => []
  | e :: rest =>
      if e.airlineIcao = m.airlineIcao then
        { e with exposure := m.newExposure } :: rest
      else e :: overrideFirst m rest

/-- Modification (when present) followed by the `e.exposure > 0` filter:
the row list `calculateScenarioRisk` actually computes on. -/
def scenarioRows (input : ScenarioInput) : List ExposureRow :=
  let exposures :=
    match input.modification with
    | none => input.exposures
    | some m => overrideFirst m input.exposures
  exposures.filter fun e => e.exposure > 0

/-- `totalExposure = exposures.reduce((sum, e) => sum + e.exposure, 0)`. -/
def sTotal (rows : List ExposureRow) : ℚ :=
  rows.foldl (fun sum e => sum + e.exposure) 0

/-- `weightedRiskSum = exposures.reduce((sum, e) => sum + e.exposure * e.risk, 0)`. -/
def sWeightedRiskSum (rows : List ExposureRow) : ℚ :=
  rows.foldl (fun sum e => sum + e.exposure * e.risk) 0

/-- `baseRisk = totalExposure > 0 ? weightedRiskSum / totalExposure : 0`. -/
def sBaseRisk (rows : List ExposureRow) : ℚ :=
  if sTotal rows > 0 then sWeightedRiskSum rows / sTotal rows else 0

/-- `Math.max(...exposures.map(e => e.exposure))` (the list is nonempty on
every path that evaluates it; the `[]` case is a dead default). -/
def sMaxExposure : List ExposureRow → ℚ
  | [] => 0
  | e :: rest => rest.foldl (fun m x => max m x.exposure) e.exposure

/-- `maxConcentration = totalExposure > 0 ? maxExposureAmount / totalExposure : 0`. -/
def sMaxConcentration (rows : List ExposureRow) : ℚ :=
  if sTotal rows > 0 then sMaxExposure rows / sTotal rows else 0

/-- The concentration-penalty ladder: `> 0.7 → 10`, `> 0.5 → 5`, else `0`. -/
def sConcentrationPenalty (rows : List ExposureRow) : ℚ :=
  let maxConcentration := sMaxConcentration rows
  if maxConcentration > 0.7 then 10
  else if maxConcentration > 0.5 then 5
  else 0

/-- `adjustedRisk = Math.min(100, baseRisk + concentrationPenalty)`. -/
def sAdjustedRisk (rows : List ExposureRow) : ℚ :=
  min 100 (sBaseRisk rows + sConcentrationPenalty rows)

/-- The scenario bucket ladder: `adjustedRisk >= 70 → High`,
`>= 40 → Medium`, else `Low` (computed on the unrounded value). -/
def sRiskBucket (rows : List ExposureRow) : RiskBucket :=
  if sAdjustedRisk rows ≥ 70 then .high
  else if sAdjustedRisk rows ≥ 40 then .medium
  else .low

/-- Stable insertion of a ranked row into a list already sorted by exposure
descending, placing it after every earlier row of equal or larger exposure —
the order `Array.prototype.sort` (stable) produces with the comparator
`(a, b) => b.exposure - a.exposure`. -/
def insertTopDesc (e : TopExposure) : List TopExposure → List TopExposure
  | [] => [e]
  | h :: t =>
      if e.exposure > h.exposure then e :: h :: t
      else h :: insertTopDesc e t

/-- Stable sort by exposure descending. -/
def sortTopsDesc (rows : List TopExposure) : List TopExposure :=
  rows.foldl (fun acc e => insertTopDesc e acc) []

/-- The `map` building ranked rows with their share of the total. -/
def sRankedRows (rows : List ExposureRow) : List TopExposure :=
  rows.map fun e =>
    { airlineIcao := e.airlineIcao, airlineName := e.airlineName,
      exposure := e.exposure,
      exposureShare := if sTotal rows > 0 then e.exposure / sTotal rows * 100 else 0,
      risk := e.risk, riskBucket := e.riskBucket }

/-- The body of `calculateScenarioRisk` after modification and filtering:
early return on an empty list, otherwise the per-currency formula with the
documented roundings (totals 2 decimals, risks 1, concentration 3). -/
def scenarioCore (rows : List ExposureRow) : ScenarioResult :=
  match rows with
  | [] => zeroScenarioResult
  | _ :: _ =>
      { totalExposure := round2 (sTotal rows),
        baseRisk := round1 (sBaseRisk rows),
        adjustedRisk := round1 (sAdjustedRisk rows),
        concentrationPenalty := sConcentrationPenalty rows,
        maxConcentration := round3 (sMaxConcentration rows),
        riskBucket := sRiskBucket rows,
        topExposures := (sortTopsDesc (sRankedRows rows)).take 10 }

/-- `calculateScenarioRisk` from `src/unnamed/part_000`. -/
def calculateScenarioRisk (input : ScenarioInput) : ScenarioResult :=
  scenarioCore (scenarioRows input)

/-! ### Object-identity embedding of `calculateScenarioRisk`, for the
no-mutation contract

Row objects live in an explicit heap (`RowHeap`, a reference is an index, an
allocation appends); the input row array is a list of references.  This
mirrors the source operation by operation: `[...input.exposures]` copies the
array but shares the row references, the override allocates a fresh object
(`{ ...e, exposure }`) and writes it into the copied array only, and no
statement anywhere stores through an existing reference, so the final heap
extends the initial one. -/

/-- The heap of `ExposureRow` objects; a reference is an index into it. -/
abbrev RowHeap := List ExposureRow

/-- Dead default for out-of-range dereferences (never hit on inputs whose
references are allocated). -/
def deadRow : ExposureRow :=
  { airlineIcao := "", airlineName := "", airlineCountry := "",
    exposure := 0, risk := 0, riskBucket := "" }

/-- Dereference. -/
def derefRow (h : RowHeap) (r : ℕ) : ExposureRow := h.getD r deadRow

/-- `ScenarioInput` with the rows as references. -/
structure ScenarioInputRefs where
  exposures : List ℕ
  currency : String
  modification : Option ScenarioModification := none

/-- The index `findIndex` returns for the modification (none when the
modification is absent or no row matches). -/
def modTargetIdx (input : ScenarioInputRefs) (h : RowHeap) : Option ℕ :=
  match input.modification with
  | none => none
  | some m => input.exposures.findIdx? fun r => (derefRow h r).airlineIcao = m.airlineIcao

/-- The modification step on the copied array: replace the found position by
a reference to a freshly allocated spread copy with the overridden exposure;
the heap grows by at most that one object. -/
def applyModRefs (input : ScenarioInputRefs) (h : RowHeap) : List ℕ × RowHeap :=
  match input.modification, modTargetIdx input h with
  | some m, some i =>
      let fresh := h.length
      let modified := { derefRow h (input.exposures.getD i 0) with exposure := m.newExposure }
      (input.exposures.set i fresh, h ++ [modified])
  | _, _ => (input.exposures, h)

/-- `calculateScenarioRisk` with explicit row identity: run the modification
on the copied reference array, then read every surviving row and hand the
data to the pure body.  Returns the result together with the final heap. -/
def calculateScenarioRiskH (input : ScenarioInputRefs) (h : RowHeap) :
    ScenarioResult × RowHeap :=
  let refs := (applyModRefs input h).1
  let h' := (applyModRefs input h).2
  let rows := (refs.map (derefRow h')).filter fun e => e.exposure > 0
  (scenarioCore rows, h')

/-! ## `src/unnamed/part_005` — multi-currency `calculatePortfolioRisk`

The database part of the function (loading the portfolio with its exposures
and each airline's latest risk snapshot) is the boundary; the embedding takes
the loaded exposure list as input, exactly the data the loop reads. -/

/-- The airline identity carried on a loaded exposure. -/
structure PAirline where
  icao : String
  name : String
  country : String
deriving DecidableEq, Repr

/-- An airline's latest risk snapshot (the two fields the calculator reads). -/
structure PSnapshot where
  overallScore : ℚ
  riskBucket : String
deriving DecidableEq, Repr

/-- A loaded portfolio exposure: airline, amount, currency, and the latest
snapshot when one exists (`riskSnapshots[0]`). -/
structure PExposure where
  airline : PAirline
  exposureAmount : ℚ
  currency : String
  latestSnapshot : Option PSnapshot := none
deriving DecidableEq, Repr

/-- One row of a `CurrencyRiskResult`. -/
structure PRow where
  airline : PAirline
  exposure : ℚ
  risk : ℚ
  riskBucket : String
deriving DecidableEq, Repr

/-- `buckets` — exposure totals partitioned by each row's own bucket. -/
structure BucketTotals where
  low : ℚ
  medium : ℚ
  high : ℚ
deriving DecidableEq, Repr

/-- `CurrencyRiskResult` from `src/unnamed/part_005`. -/
structure CurrencyRiskResult where
  totalExposure : ℚ
  baseRisk : ℚ
  adjustedRisk : ℚ
  concentrationPenalty : ℚ
  maxConcentration : ℚ
  riskBucket : RiskBucket
  buckets : BucketTotals
  rows : List PRow
deriving DecidableEq, Repr

/-- `PortfolioRiskResult` from `src/unnamed/part_005`: the per-currency map
(in insertion order), the sorted currency list, and the legacy single-currency
fields copied from the first sorted currency. -/
structure PortfolioRiskResult where
  perCurrency : List (String × CurrencyRiskResult)
  currencies : List String
  totalExposure : ℚ
  baseRisk : ℚ
  adjustedRisk : ℚ
  portfolioRisk : ℚ
  concentrationPenalty : ℚ
  maxConcentration : ℚ
  riskBucket : RiskBucket
  buckets : BucketTotals
  topExposures : List PRow
  currency : String
deriving DecidableEq, Repr

/-- `exposure.currency || 'USD'` — the empty string is falsy. -/
def currencyKey (e : PExposure) : String :=
  if e.currency = "" then "USD" else e.currency

/-- Append an exposure to its currency's group, keeping the `Map`'s key
insertion order (`exposuresByCurrency`). -/
def pushToGroup (groups : List (String × List PExposure)) (key : String)
    (e : PExposure) : List (String × List PExposure) :=
  match groups with
  | [] => [(key, [e])]
  | (c, g) :: rest =>
      if c = key then (c, g ++ [e]) :: rest
      else (c, g) :: pushToGroup rest key e

/-- `exposuresByCurrency`: group the exposures by `currency || 'USD'`,
preserving first-occurrence key order and within-group exposure order. -/
def groupByCurrency (exposures : List PExposure) : List (String × List PExposure) :=
  exposures.foldl (fun groups e => pushToGroup groups (currencyKey e) e) []

/-- The per-exposure row the loop pushes: the latest snapshot's score and
bucket, defaulting to `50` / `'Medium'` when no snapshot is on file. -/
def pRowOf (e : PExposure) : PRow :=
  match e.latestSnapshot with
  | some snapshot =>
      { airline := e.airline, exposure := e.exposureAmount,
        risk := snapshot.overallScore, riskBucket := snapshot.riskBucket }
  | none =>
      { airline := e.airline, exposure := e.exposureAmount,
        risk := 50, riskBucket := "Medium" }

/-- `totalExposure` accumulated over a currency group. -/
def gTotal (g : List PExposure) : ℚ :=
  g.foldl (fun sum e => sum + e.exposureAmount) 0

/-- `weightedRiskSum` accumulated over a currency group. -/
def gWeightedRiskSum (g : List PExposure) : ℚ :=
  g.foldl (fun sum e => sum + e.exposureAmount * (pRowOf e).risk) 0

/-- `baseRisk = totalExposure > 0 ? weightedRiskSum / totalExposure : 0`. -/
def gBaseRisk (g : List PExposure) : ℚ :=
  if gTotal g > 0 then gWeightedRiskSum g / gTotal g else 0

/-- `Math.max(...rows.map(r => r.exposure))` (nonempty on every live path). -/
def gMaxExposure : List PExposure → ℚ
  | [] => 0
  | e :: rest => rest.foldl (fun m x => max m x.exposureAmount) e.exposureAmount

/-- `maxConcentration` of a currency group. -/
def gMaxConcentration (g : List PExposure) : ℚ :=
  if gTotal g > 0 then gMaxExposure g / gTotal g else 0

/-- The concentration-penalty ladder of the portfolio calculator. -/
def gConcentrationPenalty (g : List PExposure) : ℚ :=
  let maxConcentration := gMaxConcentration g
  if maxConcentration > 0.7 then 10
  else if maxConcentration > 0.5 then 5
  else 0

/-- `adjustedRisk = Math.min(100, baseRisk + concentrationPenalty)`. -/
def gAdjustedRisk (g : List PExposure) : ℚ :=
  min 100 (gBaseRisk g + gConcentrationPenalty g)

/-- The portfolio bucket ladder (on the unrounded adjusted risk). -/
def gRiskBucket (g : List PExposure) : RiskBucket :=
  if gAdjustedRisk g ≥ 70 then .high
  else if gAdjustedRisk g ≥ 40 then .medium
  else .low

/-- `buckets` accumulation: a row's amount goes to `low` on `'Low'`,
`medium` on `'Medium'`, and `high` on anything else. -/
def gBucketTotals (g : List PExposure) : BucketTotals :=
  g.foldl
    (fun buckets e =>
      let row := pRowOf e
      if row.riskBucket = "Low" then { buckets with low := buckets.low + row.exposure }
      else if row.riskBucket = "Medium" then { buckets with medium := buckets.medium + row.exposure }
      else { buckets with high := buckets.high + row.exposure })
    { low := 0, medium := 0, high := 0 }

/-- Stable insertion for the `rows.sort((a, b) => b.exposure - a.exposure)`
order. -/
def insertPRowDesc (e : PRow) : List PRow → List PRow
  | [] => [e]
  | h :: t =>
      if e.exposure > h.exposure then e :: h :: t
      else h :: insertPRowDesc e t

/-- Stable sort of the currency rows by exposure descending. -/
def sortPRowsDesc (rows : List PRow) : List PRow :=
  rows.foldl (fun acc e => insertPRowDesc e acc) []

/-- The body of the per-currency loop of `calculatePortfolioRisk`. -/
def calcCurrencyGroup (g : List PExposure) : CurrencyRiskResult :=
  { totalExposure := round2 (gTotal g),
    baseRisk := round1 (gBaseRisk g),
    adjustedRisk := round1 (gAdjustedRisk g),
    concentrationPenalty := gConcentrationPenalty g,
    maxConcentration := round3 (gMaxConcentration g),
    riskBucket := gRiskBucket g,
    buckets :=
      { low := round2 (gBucketTotals g).low,
        medium := round2 (gBucketTotals g).medium,
        high := round2 (gBucketTotals g).high },
    rows := sortPRowsDesc (g.map pRowOf) }

/-- The zero `PortfolioRiskResult` returned for an empty exposure list. -/
def emptyPortfolioResult : PortfolioRiskResult :=
  { perCurrency := [], currencies := [],
    totalExposure := 0, baseRisk := 0, adjustedRisk := 0, portfolioRisk := 0,
    concentrationPenalty := 0, maxConcentration := 0, riskBucket := .low,
    buckets := { low := 0, medium := 0, high := 0 },
    topExposures := [], currency := "USD" }

/-- The `primaryData` fallback object (only reachable when the lookup of the
first currency misses, which never happens on a nonempty portfolio). -/
def fallbackPrimaryData : CurrencyRiskResult :=
  { totalExposure := 0, baseRisk := 0, adjustedRisk := 0,
    concentrationPenalty := 0, maxConcentration := 0, riskBucket := .low,
    buckets := { low := 0, medium := 0, high := 0 }, rows := [] }

/-- Stable insertion for `Array.from(keys).sort()` on currency codes. -/
def insertStrAsc (s : String) : List String → List String
  | [] => [s]
  | h :: t => if s < h then s :: h :: t else h :: insertStrAsc s t

/-- Lexicographic sort of the currency keys. -/
def sortStringsAsc (l : List String) : List String :=
  l.foldl (fun acc s => insertStrAsc s acc) []

/-- `calculatePortfolioRisk` from `src/unnamed/part_005`, on the loaded
exposure list: early return for an empty portfolio, otherwise group by
currency, compute every group, sort the currency codes, and copy the first
sorted currency into the legacy fields. -/
def calculatePortfolioRisk (exposures : List PExposure) : PortfolioRiskResult :=
  match exposures with
  | [] => emptyPortfolioResult
  | _ :: _ =>
      let groups := groupByCurrency exposures
      let perCurrency := groups.map fun cg => (cg.1, calcCurrencyGroup cg.2)
      let currencies := sortStringsAsc (groups.map Prod.fst)
      let primaryCurrency := currencies.headD "USD"
      let primaryData := ((perCurrency.lookup primaryCurrency).getD fallbackPrimaryData)
      { perCurrency := perCurrency, currencies := currencies,
        totalExposure := primaryData.totalExposure,
        baseRisk := primaryData.baseRisk,
        adjustedRisk := primaryData.adjustedRisk,
        portfolioRisk := primaryData.adjustedRisk,
        concentrationPenalty := primaryData.concentrationPenalty,
        maxConcentration := primaryData.maxConcentration,
        riskBucket := primaryData.riskBucket,
        buckets := primaryData.buckets,
        topExposures := primaryData.rows.take 10,
        currency := primaryCurrency }

/-! ## Concrete inputs and statement-side definitions used by the theorems -/

/-- The `FinancialFundamentals` value `getMockFinancialData('AAL')` returns
(the `AAL` table row with the ticker and `dataSource: 'mock'` attached). -/
def aalFundamentals : FinancialFundamentals :=
  { ticker := "AAL", companyName := "American Airlines Group Inc.",
    totalDebt := 42000000000, totalEquity := 8000000000,
    cash := 12000000000, revenue := 52000000000, netIncome := 1500000000,
    debtToEquity := 5.25, profitMargin := 2.88, cashToDebt := 0.29,
    currency := "USD", fiscalYear := "2024", dataSource := "mock" }

/-- A context used by the concrete witnesses below. -/
def witnessContext : RiskContext :=
  { icao := "UAE", name := "Emirates", country := "United Arab Emirates",
    active := true }

/-- An asset-liquidity-style source whose score is always unavailable. -/
def alwaysNullSource : RiskSourceSpec :=
  { key := .assetLiquidity, name := "Fleet & Asset Liquidity (proxy)",
    enabled := true, weight := 0.20,
    calculate := fun _ => .ok { score := none, confidence := .low } }

/-- A scale-style source that always throws `boom`. -/
def throwingSource : RiskSourceSpec :=
  { key := .scale, name := "Scale & Network Strength", enabled := true,
    weight := 0.20, calculate := fun _ => .error (.js "boom") }

/-- Sum of the configured weights of the available (non-null-score)
breakdown entries — the quantity the loop accumulates in
`totalAvailableWeight`. -/
def availableWeight (breakdown : List BreakdownEntry) : ℚ :=
  ((breakdown.filter fun e => e.score.isSome).map fun e => e.weight).sum

/-- Sum of the effective weights of the available breakdown entries. -/
def effectiveWeightSum (breakdown : List BreakdownEntry) : ℚ :=
  ((breakdown.filter fun e => e.score.isSome).map fun e => e.effectiveWeight).sum

/-- Loop invariant: `totalAvailableWeight` tracks the available weight of
the breakdown built so far, whose entries carry `effectiveWeight = weight`
when available and `0` when not. -/
def AggBreakdownInv (st : AggState) : Prop :=
  st.totalAvailableWeight = availableWeight st.breakdown
  ∧ ∀ e ∈ st.breakdown,
      (e.score.isSome → e.effectiveWeight = e.weight)
      ∧ (e.score = none → e.effectiveWeight = 0)

/-- A jurisdiction-style source always available at score 60, weight 0.25. -/
def jurW : RiskSourceSpec :=
  { key := .jurisdiction, name := "Jurisdiction Risk (proxy)", enabled := true,
    weight := 0.25, calculate := fun _ => .ok { score := some 60, confidence := .high } }

/-- A financial-style source always unavailable, weight 0.35. -/
def finW : RiskSourceSpec :=
  { key := .financial, name := "Financial Strength", enabled := true,
    weight := 0.35, calculate := fun _ => .ok { score := none, confidence := .low } }

/-- The result of aggregating `[jurW, finW]` on the witness context. -/
def c4res : RiskResultPure :=
  { overallScore := 60, riskBucket := .medium,
    components :=
      [(.jurisdiction, { score := some 60, confidence := .high }),
       (.financial, { score := none, confidence := .low })],
    breakdown :=
      [{ key := .jurisdiction, name := "Jurisdiction Risk (proxy)",
         score := some 60, confidence := .high, weight := 1/4,
         effectiveWeight := 1 },
       { key := .financial, name := "Financial Strength",
         score := none, confidence := .low, weight := 7/20,
         effectiveWeight := 0 }],
    context := witnessContext,
    missingComponents := some ["Financial Strength"],
    reweighted := some true }

/-- The available breakdown entry of `c4res`. -/
def c4availableEntry : BreakdownEntry :=
  { key := .jurisdiction, name := "Jurisdiction Risk (proxy)",
    score := some 60, confidence := .high, weight := 1/4,
    effectiveWeight := 1 }

/-- A scenario row with exposure 50, risk 50. -/
def halfRowA : ExposureRow :=
  { airlineIcao := "AAA", airlineName := "Air Alpha", airlineCountry := "US",
    exposure := 50, risk := 50, riskBucket := "Medium" }

/-- A second scenario row with exposure 50, risk 50. -/
def halfRowB : ExposureRow :=
  { airlineIcao := "BBB", airlineName := "Air Beta", airlineCountry := "US",
    exposure := 50, risk := 50, riskBucket := "Medium" }

/-- A USD portfolio exposure of 70 with no snapshot. -/
def pEx70 : PExposure :=
  { airline := { icao := "AAA", name := "Air Alpha", country := "US" },
    exposureAmount := 70, currency := "USD" }

/-- A USD portfolio exposure of 30 with no snapshot. -/
def pEx30 : PExposure :=
  { airline := { icao := "BBB", name := "Air Beta", country := "US" },
    exposureAmount := 30, currency := "USD" }

/-- A scenario row yielding adjusted risk exactly 40 (risk 30 + penalty 10). -/
def fortyRow : ExposureRow :=
  { airlineIcao := "CCC", airlineName := "Air Gamma", airlineCountry := "US",
    exposure := 100, risk := 30, riskBucket := "Low" }

/-- The full scenario result on `[fortyRow]`. -/
def fortyResult : ScenarioResult :=
  { totalExposure := 100, baseRisk := 30, adjustedRisk := 40,
    concentrationPenalty := 10, maxConcentration := 1,
    riskBucket := .medium,
    topExposures :=
      [{ airlineIcao := "CCC", airlineName := "Air Gamma", exposure := 100,
         exposureShare := 100, risk := 30, riskBucket := "Low" }] }

/-- Remove the first row carrying the given airline identifier (the row the
override targets). -/
def removeFirstByIcao (icao : String) : List ExposureRow → List ExposureRow
  | [] => []
  | e :: rest =>
      if e.airlineIcao = icao then rest else e :: removeFirstByIcao icao rest

/-- The two-row heap for the C8 witness. -/
def c8Heap : RowHeap := [halfRowA, halfRowB]

/-- The scenario input (by reference) for the C8 witness: both rows, with an
override targeting the second one. -/
def c8Input : ScenarioInputRefs :=
  { exposures := [0, 1], currency := "USD",
    modification := some { airlineIcao := "BBB", newExposure := 10 } }

/-! ## Rounding lemmas -/

lemma round1_add_intCast (b : ℚ) (k : ℤ) : round1 (b + k) = round1 b + k := by
  unfold round1 jsRound
  have h : (b + (k : ℚ)) * 10 + 1/2 = (b * 10 + 1/2) + ((10 * k : ℤ) : ℚ) := by
    push_cast; ring
  rw [h, Int.floor_add_int]
  push_cast
  ring

lemma round1_mono {x y : ℚ} (h : x ≤ y) : round1 x ≤ round1 y := by
  unfold round1 jsRound
  have hf : ⌊x * 10 + 1/2⌋ ≤ ⌊y * 10 + 1/2⌋ := Int.floor_le_floor (by linarith)
  have : ((⌊x * 10 + 1/2⌋ : ℚ)) ≤ ((⌊y * 10 + 1/2⌋ : ℚ)) := by exact_mod_cast hf
  linarith

lemma round1_hundred : round1 100 = 100 := by norm_num [round1, jsRound]

lemma round1_min100_intCast (b : ℚ) (k : ℤ) :
    round1 (min 100 (b + k)) = min 100 (round1 b + k) := by
  rcases le_or_lt (b + (k : ℚ)) 100 with hle | hlt
  · rw [min_eq_right hle, round1_add_intCast]
    have h100 : round1 b + (k : ℚ) ≤ 100 := by
      have := round1_mono hle
      rw [round1_add_intCast, round1_hundred] at this
      exact this
    rw [min_eq_right h100]
  · rw [min_eq_left (le_of_lt hlt), round1_hundred]
    have hk : round1 b + (k : ℚ) ≥ 100 := by
      unfold round1 jsRound
      have hfl : (1000 - 10 * k : ℤ) ≤ ⌊b * 10 + 1/2⌋ := by
        rw [Int.le_floor]
        push_cast
        linarith
      have : ((1000 - 10 * k : ℤ) : ℚ) ≤ ((⌊b * 10 + 1/2⌋ : ℚ)) := by exact_mod_cast hfl
      push_cast at this
      linarith
    rw [min_eq_left hk]

lemma round1_le_hundred {x : ℚ} (h : x ≤ 100) : round1 x ≤ 100 := by
  have := round1_mono h
  rwa [round1_hundred] at this

/-! ## Claim C3 — `normalizeScore` on an empty range -/

/-- C3 (counterexample): with `min == max`, `normalizeScore` does not raise
any error — the repository defines no `InvalidRangeError` anywhere — and at
`value == min == max` it silently returns `NaN`: the division
`(value - min) / (max - min)` is `0 / 0`. -/
theorem normalizeScore_emptyRange_silent_nan :
    normalizeScore 3 3 3 false = JsNum.nan := by
  norm_num [normalizeScore, JsNum.sub, JsNum.div, JsNum.mul, JsNum.jmin, JsNum.jmax]

/-- C3 (amended): with an empty range (`min == max`) the normalizer never
throws; it returns the JS value `NaN` when `value == min`, `100` when
`value > min` (`0` when inverted), and `0` when `value < min` (`100` when
inverted), following IEEE division by zero through the clamp. -/
theorem normalizeScore_emptyRange_value (value m : ℚ) (invert : Bool) :
    normalizeScore value m m invert =
      (if value = m then JsNum.nan
       else if m < value then (if invert then JsNum.fin 0 else JsNum.fin 100)
       else (if invert then JsNum.fin 100 else JsNum.fin 0)) := by
  rcases lt_trichotomy value m with h | h | h
  · have hne : value ≠ m := ne_of_lt h
    have hne' : value - m ≠ 0 := sub_ne_zero.mpr hne
    have hneg : ¬(0 < value - m) := by linarith
    cases invert <;>
      simp [normalizeScore, JsNum.sub, JsNum.div, JsNum.mul, JsNum.jmin, JsNum.jmax,
        sub_self, hne, hne', hneg, not_lt.mpr (le_of_lt h)]
  · subst h
    cases invert <;>
      simp [normalizeScore, JsNum.sub, JsNum.div, JsNum.mul, JsNum.jmin, JsNum.jmax, sub_self]
  · have hne : value ≠ m := ne_of_gt h
    have hne' : value - m ≠ 0 := sub_ne_zero.mpr hne
    have hpos : 0 < value - m := by linarith
    cases invert <;>
      simp [normalizeScore, JsNum.sub, JsNum.div, JsNum.mul, JsNum.jmin, JsNum.jmax,
        sub_self, hne, hne', hpos, h]

/-! ## Claim C6 — financial score of the American Airlines mock profile -/

/-- C6 (counterexample): the financial-strength score computed from the
American Airlines mock fundamentals is `64.2`, not approximately `43.7`
(the sub-scores are `debt = 91.25`, `profit = 34.1304`, `liquidity = 70`,
blending to `64.15216`, which rounds to `64.2` — `20.5` away from the
claimed value). -/
theorem computeFinancialRisk_aal_not_43_7 :
    getMockFinancialData "AAL" = some aalFundamentals
    ∧ computeFinancialRisk aalFundamentals = 321/5
    ∧ ¬|computeFinancialRisk aalFundamentals - 43.7| ≤ 10 := by
  refine ⟨rfl, ?_, ?_⟩ <;>
    norm_num [computeFinancialRisk, aalFundamentals, round1, jsRound, abs]

/-- C6 (amended): the financial-strength score computed from the American
Airlines mock fundamentals (`debtToEquity = 5.25`, `profitMargin = 2.88`,
`cashToDebt = 0.29`) — sub-score bands, `0.4/0.4/0.2` blend, clamp to
`[0,100]`, rounding to one decimal — equals `64.2`.  (The `43.7` the claim
quotes is a hard-coded seed value in the demo seeding script, not the output
of the formula.) -/
theorem computeFinancialRisk_aal :
    getMockFinancialData "AAL" = some aalFundamentals
    ∧ computeFinancialRisk aalFundamentals = 64.2 := by
  refine ⟨rfl, ?_⟩
  norm_num [computeFinancialRisk, aalFundamentals, round1, jsRound]

/-! ## Aggregator loop lemmas -/

lemma aggLoop_append (st : AggState) (l₁ l₂ : List RiskSourceSpec) :
    aggLoop st (l₁ ++ l₂) =
      match aggLoop st l₁ with
      | .error e => .error e
      | .ok st' => aggLoop st' l₂ := by
  induction l₁ generalizing st with
  | nil => rfl
  | cons s rest ih =>
      simp only [List.cons_append, aggLoop]
      cases aggStep st s with
      | error e => rfl
      | ok st' => exact ih st'

lemma recordComponent_totalWeightedScore (st : AggState) (s : RiskSourceSpec)
    (cs : ComponentScore) :
    (recordComponent st s cs).totalWeightedScore = st.totalWeightedScore := by
  unfold recordComponent; split <;> rfl

lemma recordComponent_totalAvailableWeight (st : AggState) (s : RiskSourceSpec)
    (cs : ComponentScore) :
    (recordComponent st s cs).totalAvailableWeight = st.totalAvailableWeight := by
  unfold recordComponent; split <;> rfl

lemma recordComponent_breakdown (st : AggState) (s : RiskSourceSpec)
    (cs : ComponentScore) :
    (recordComponent st s cs).breakdown = st.breakdown := by
  unfold recordComponent; split <;> rfl

lemma aggStep_null (st : AggState) (s : RiskSourceSpec) (hen : s.enabled = true)
    (cs : ComponentScore) (hcalc : s.calculate st.ctx = .ok cs)
    (hscore : cs.score = none) :
    ∃ st₁, aggStep st s = .ok st₁
      ∧ st₁.totalWeightedScore = st.totalWeightedScore
      ∧ st₁.totalAvailableWeight = st.totalAvailableWeight := by
  simp only [aggStep, hen, not_true_eq_false, if_false, hcalc, hscore]
  exact ⟨_, rfl,
    recordComponent_totalWeightedScore st s cs,
    recordComponent_totalAvailableWeight st s cs⟩

lemma aggLoop_all_null (sources : List RiskSourceSpec)
    (hnull : ∀ s ∈ sources, s.enabled = true →
      ∀ c, ∃ cs, s.calculate c = .ok cs ∧ cs.score = none) :
    ∀ st : AggState, ∃ st', aggLoop st sources = .ok st'
      ∧ st'.totalWeightedScore = st.totalWeightedScore
      ∧ st'.totalAvailableWeight = st.totalAvailableWeight := by
  induction sources with
  | nil => exact fun st => ⟨st, rfl, rfl, rfl⟩
  | cons s rest ih =>
      intro st
      have hrest := fun s hs => hnull s (List.mem_cons_of_mem _ hs)
      by_cases hen : s.enabled
      · obtain ⟨cs, hcalc, hscore⟩ := hnull s (List.mem_cons_self s rest) hen st.ctx
        obtain ⟨st₁, hst₁, hw₁, ha₁⟩ := aggStep_null st s hen cs hcalc hscore
        obtain ⟨st', hloop, hw', ha'⟩ := ih hrest st₁
        refine ⟨st', ?_, by rw [hw', hw₁], by rw [ha', ha₁]⟩
        simp only [aggLoop, hst₁]
        exact hloop
      · obtain ⟨st', hloop, hw', ha'⟩ := ih hrest st
        refine ⟨st', ?_, hw', ha'⟩
        simp only [aggLoop, aggStep, hen, not_false_eq_true, if_true]
        exact hloop

/-! ## Claim C5 — all components unavailable -/

/-- C5: when every enabled evaluator returns a `null` score (on any context
it is handed), the aggregator does not raise: it returns a result whose
`overallScore` is the defined fallback `50`, bucketed `Medium` by the
default thresholds. -/
theorem calculateAirlineRisk_all_null (context : RiskContext)
    (sources : List RiskSourceSpec)
    (hnull : ∀ s ∈ sources, s.enabled = true →
      ∀ c, ∃ cs, s.calculate c = .ok cs ∧ cs.score = none) :
    (calculateAirlineRisk context sources DEFAULT_RISK_CONFIG).map
      (fun res => (res.overallScore, res.riskBucket)) = .ok (50, .medium) := by
  obtain ⟨st', hloop, hw', ha'⟩ := aggLoop_all_null sources hnull (initAggState context)
  have ha0 : st'.totalAvailableWeight = 0 := by
    rw [ha']; rfl
  unfold calculateAirlineRisk
  rw [hloop]
  simp only [Except.map, ha0]
  norm_num [scoreToRiskBucket, DEFAULT_RISK_CONFIG, round1, jsRound]

/-- C5 (witness): a run whose only source always returns a `null` score
yields overall score `50` and bucket `Medium`. -/
theorem calculateAirlineRisk_all_null_witness :
    (calculateAirlineRisk witnessContext [alwaysNullSource] DEFAULT_RISK_CONFIG).map
      (fun res => (res.overallScore, res.riskBucket)) = .ok (50, .medium) :=
  calculateAirlineRisk_all_null witnessContext [alwaysNullSource]
    (fun s hs _ c => by
      rw [List.mem_singleton] at hs
      subst hs
      exact ⟨_, rfl, rfl⟩)

/-! ## Claim C7 — evaluator exceptions -/

/-- C7 (counterexample): a throwing evaluator's exception comes back to the
caller untouched — as the raw thrown value, not wrapped in any
`EvaluatorFailure` naming the evaluator key (no such wrapper exists in the
repository). -/
theorem calculateAirlineRisk_throw_unwrapped :
    calculateAirlineRisk witnessContext [throwingSource] DEFAULT_RISK_CONFIG
      = .error (.js "boom")
    ∧ calculateAirlineRisk witnessContext [throwingSource] DEFAULT_RISK_CONFIG
      ≠ .error (.evaluatorFailure .scale) := by
  have h1 : calculateAirlineRisk witnessContext [throwingSource] DEFAULT_RISK_CONFIG
      = .error (.js "boom") := rfl
  refine ⟨h1, ?_⟩
  rw [h1]
  simp

/-- C7 (amended): the aggregator neither catches nor wraps an evaluator
exception: if the sources before `s` all succeed and `s` (enabled) throws
`e` on the context as evolved so far, the whole aggregation returns exactly
`e` — no swallowing, no substituted score, no retry, and no
`EvaluatorFailure` wrapper. -/
theorem calculateAirlineRisk_propagates_error (context : RiskContext)
    (pre : List RiskSourceSpec) (s : RiskSourceSpec) (post : List RiskSourceSpec)
    (e : EvalError) (config : RiskConfig) (st' : AggState)
    (hpre : aggLoop (initAggState context) pre = .ok st')
    (hen : s.enabled = true)
    (hthrow : s.calculate st'.ctx = .error e) :
    calculateAirlineRisk context (pre ++ s :: post) config = .error e := by
  unfold calculateAirlineRisk
  rw [aggLoop_append, hpre]
  simp only [aggLoop, aggStep, hen, not_true_eq_false, if_false, hthrow]

/-- C7 (witness): concrete propagation of a thrown evaluator error. -/
theorem calculateAirlineRisk_propagates_error_witness :
    calculateAirlineRisk witnessContext
        [{ key := .jurisdiction, name := "Jurisdiction Risk (proxy)",
           enabled := true, weight := 0.25,
           calculate := fun _ => .error (.js "network down") }]
        DEFAULT_RISK_CONFIG = .error (.js "network down") :=
  calculateAirlineRisk_propagates_error witnessContext [] _ [] (.js "network down")
    DEFAULT_RISK_CONFIG (initAggState witnessContext) rfl rfl rfl

/-! ## Claim C4 — reweighting over available components -/

lemma availableWeight_append (b : List BreakdownEntry) (e : BreakdownEntry) :
    availableWeight (b ++ [e])
      = availableWeight b + (if e.score.isSome then e.weight else 0) := by
  simp only [availableWeight, List.filter_append, List.map_append, List.sum_append]
  by_cases h : e.score.isSome <;> simp [h]

lemma aggBreakdownInv_of_eq {st st' : AggState}
    (hb : st'.breakdown = st.breakdown)
    (ha : st'.totalAvailableWeight = st.totalAvailableWeight)
    (hinv : AggBreakdownInv st) : AggBreakdownInv st' := by
  unfold AggBreakdownInv
  rw [hb, ha]
  exact hinv

lemma recordComponent_inv {st : AggState} (s : RiskSourceSpec) (cs : ComponentScore)
    (hinv : AggBreakdownInv st) : AggBreakdownInv (recordComponent st s cs) :=
  aggBreakdownInv_of_eq (recordComponent_breakdown st s cs)
    (recordComponent_totalAvailableWeight st s cs) hinv

lemma recordMissing_inv {st : AggState} (s : RiskSourceSpec) (cs : ComponentScore)
    (hinv : AggBreakdownInv st) : AggBreakdownInv (recordMissing st s cs) := by
  constructor
  · show st.totalAvailableWeight = availableWeight (st.breakdown ++ [_])
    rw [availableWeight_append]
    simpa using hinv.1
  · intro e he
    rcases List.mem_append.mp he with hm | hm
    · exact hinv.2 e hm
    · rw [List.mem_singleton] at hm
      subst hm
      exact ⟨by simp, fun _ => rfl⟩

lemma recordAvailable_inv {st : AggState} (s : RiskSourceSpec) (cs : ComponentScore)
    (sc : ℚ) (hinv : AggBreakdownInv st) :
    AggBreakdownInv (recordAvailable st s cs sc) := by
  constructor
  · show st.totalAvailableWeight + s.weight = availableWeight (st.breakdown ++ [_])
    rw [availableWeight_append, hinv.1]
    simp
  · intro e he
    rcases List.mem_append.mp he with hm | hm
    · exact hinv.2 e hm
    · rw [List.mem_singleton] at hm
      subst hm
      exact ⟨fun _ => rfl, by simp⟩

lemma aggStep_inv {st st' : AggState} {s : RiskSourceSpec}
    (hinv : AggBreakdownInv st) (hstep : aggStep st s = .ok st') :
    AggBreakdownInv st' := by
  by_cases hen : s.enabled
  · simp only [aggStep, hen, not_true_eq_false, if_false] at hstep
    cases hcalc : s.calculate st.ctx with
    | error e =>
        rw [hcalc] at hstep
        dsimp only at hstep
        exact absurd hstep (by simp)
    | ok cs =>
        rw [hcalc] at hstep
        dsimp only at hstep
        cases hscore : cs.score with
        | none =>
            rw [hscore] at hstep
            obtain rfl := (Except.ok.inj hstep).symm
            exact recordMissing_inv s cs (recordComponent_inv s cs hinv)
        | some sc =>
            rw [hscore] at hstep
            obtain rfl := (Except.ok.inj hstep).symm
            exact recordAvailable_inv s cs sc (recordComponent_inv s cs hinv)
  · simp only [aggStep, hen, not_false_eq_true, if_true] at hstep
    obtain rfl := (Except.ok.inj hstep).symm
    exact hinv

lemma aggLoop_inv {st st' : AggState} {sources : List RiskSourceSpec}
    (hinv : AggBreakdownInv st) (hloop : aggLoop st sources = .ok st') :
    AggBreakdownInv st' := by
  induction sources generalizing st with
  | nil => simpa [aggLoop] using (Except.ok.inj hloop) ▸ hinv
  | cons s rest ih =>
      simp only [aggLoop] at hloop
      cases hstep : aggStep st s with
      | error e => rw [hstep] at hloop; exact absurd hloop (by simp)
      | ok st₁ =>
          rw [hstep] at hloop
          exact ih (aggStep_inv hinv hstep) hloop

lemma availableWeight_cons (e : BreakdownEntry) (l : List BreakdownEntry) :
    availableWeight (e :: l)
      = (if e.score.isSome then e.weight else 0) + availableWeight l := by
  unfold availableWeight
  rw [List.filter_cons]
  by_cases h : e.score.isSome <;> simp [h]

lemma effectiveWeightSum_cons (e : BreakdownEntry) (l : List BreakdownEntry) :
    effectiveWeightSum (e :: l)
      = (if e.score.isSome then e.effectiveWeight else 0) + effectiveWeightSum l := by
  unfold effectiveWeightSum
  rw [List.filter_cons]
  by_cases h : e.score.isSome <;> simp [h]

lemma availableWeight_map_preserve (f : BreakdownEntry → BreakdownEntry)
    (hf : ∀ e, (f e).score = e.score ∧ (f e).weight = e.weight)
    (l : List BreakdownEntry) :
    availableWeight (l.map f) = availableWeight l := by
  induction l with
  | nil => rfl
  | cons e t ih =>
      rw [List.map_cons, availableWeight_cons, availableWeight_cons, ih,
        (hf e).1, (hf e).2]

lemma effectiveWeightSum_eq_div {W : ℚ} {l : List BreakdownEntry}
    (h : ∀ e ∈ l, e.score.isSome → e.effectiveWeight = e.weight / W) :
    effectiveWeightSum l = availableWeight l / W := by
  induction l with
  | nil => simp [effectiveWeightSum, availableWeight]
  | cons e t ih =>
      rw [effectiveWeightSum_cons, availableWeight_cons,
        ih fun x hx => h x (List.mem_cons_of_mem _ hx)]
      by_cases hs : e.score.isSome
      · rw [if_pos hs, if_pos hs, h e (List.mem_cons_self _ _) hs, add_div]
      · rw [if_neg hs, if_neg hs, zero_add, zero_add]

/-- C4: in any aggregation whose available weight lies strictly between `0`
and `1` (and at least one component is available), the result is marked
`reweighted`, every available breakdown entry carries
`effectiveWeight = weight / totalAvailableWeight`, every unavailable entry
carries `effectiveWeight = 0`, and the effective weights of the available
entries sum to exactly `1`. -/
theorem calculateAirlineRisk_reweights (context : RiskContext)
    (sources : List RiskSourceSpec) (config : RiskConfig) (res : RiskResultPure)
    (hres : calculateAirlineRisk context sources config = .ok res)
    (hex : ∃ e ∈ res.breakdown, e.score ≠ none)
    (h0 : 0 < availableWeight res.breakdown)
    (h1 : availableWeight res.breakdown < 1) :
    res.reweighted = some true
    ∧ (∀ e ∈ res.breakdown, e.score ≠ none →
        e.effectiveWeight = e.weight / availableWeight res.breakdown)
    ∧ (∀ e ∈ res.breakdown, e.score = none → e.effectiveWeight = 0)
    ∧ effectiveWeightSum res.breakdown = 1 := by
  unfold calculateAirlineRisk at hres
  cases hloop : aggLoop (initAggState context) sources with
  | error e =>
      rw [hloop] at hres
      exact absurd hres (by simp)
  | ok st =>
      have hinv : AggBreakdownInv st :=
        aggLoop_inv ⟨rfl, fun e he => absurd he (List.not_mem_nil e)⟩ hloop
      rw [hloop] at hres
      dsimp only at hres
      obtain rfl := (Except.ok.inj hres).symm
      dsimp only at hex h0 h1 ⊢
      set f : BreakdownEntry → BreakdownEntry := fun item =>
        if item.score ≠ none ∧ item.effectiveWeight ≠ 0 then
          { item with effectiveWeight := item.weight / st.totalAvailableWeight }
        else item with hf
      have hfpres : ∀ e, (f e).score = e.score ∧ (f e).weight = e.weight := by
        intro e
        rw [hf]
        constructor <;> (dsimp only; split <;> rfl)
      have hA : availableWeight
          (if st.totalAvailableWeight < 1 ∧ st.totalAvailableWeight > 0 then
            st.breakdown.map f else st.breakdown) = st.totalAvailableWeight := by
        split
        · rw [availableWeight_map_preserve f hfpres]
          exact hinv.1.symm
        · exact hinv.1.symm
      rw [hA] at h0 h1
      have hcond : st.totalAvailableWeight < 1 ∧ st.totalAvailableWeight > 0 :=
        ⟨h1, h0⟩
      have hc : (st.totalAvailableWeight < 1 ∧ st.totalAvailableWeight > 0) = True :=
        eq_true hcond
      simp only [hc, if_true] at hex hA ⊢
      rw [hA]
      have hmem : ∀ e ∈ st.breakdown.map f, ∃ item ∈ st.breakdown, e = f item := by
        intro e he
        obtain ⟨item, hitem, hfe⟩ := List.mem_map.mp he
        exact ⟨item, hitem, hfe.symm⟩
      have havail : ∀ e ∈ st.breakdown.map f, e.score ≠ none →
          e.effectiveWeight = e.weight / st.totalAvailableWeight := by
        intro e he hs
        obtain ⟨item, hitem, rfl⟩ := hmem e he
        have hscore : item.score ≠ none := by
          rw [← (hfpres item).1]
          exact hs
        have hsome : item.score.isSome := Option.ne_none_iff_isSome.mp hscore
        by_cases hw : item.effectiveWeight = 0
        · have hweq : item.effectiveWeight = item.weight := hinv.2 item hitem |>.1 hsome
          have hw0 : item.weight = 0 := hweq ▸ hw
          have : f item = item := by
            rw [hf]
            dsimp only
            rw [if_neg]
            simp [hw]
          rw [this, hw, hw0, zero_div]
        · have : f item = { item with effectiveWeight := item.weight / st.totalAvailableWeight } := by
            rw [hf]
            dsimp only
            rw [if_pos ⟨hscore, hw⟩]
          rw [this]
      have hnone : ∀ e ∈ st.breakdown.map f, e.score = none → e.effectiveWeight = 0 := by
        intro e he hs
        obtain ⟨item, hitem, rfl⟩ := hmem e he
        have hscore : item.score = none := by
          rw [← (hfpres item).1]
          exact hs
        have : f item = item := by
          rw [hf]
          dsimp only
          rw [if_neg]
          simp [hscore]
        rw [this]
        exact (hinv.2 item hitem).2 hscore
      refine ⟨trivial, havail, hnone, ?_⟩
      have hdiv : effectiveWeightSum (st.breakdown.map f)
          = availableWeight (st.breakdown.map f) / st.totalAvailableWeight := by
        refine effectiveWeightSum_eq_div ?_
        intro e he hs
        refine havail e he ?_
        exact Option.ne_none_iff_isSome.mpr hs
      rw [hdiv, availableWeight_map_preserve f hfpres, ← hinv.1]
      exact div_self (ne_of_gt h0)

/-- C4 (witness): a run with an available jurisdiction component (weight
`0.25`) and an unavailable financial component (weight `0.35`) has available
weight `0.25 ∈ (0, 1)`, is reweighted, gives the available entry effective
weight `1`, the missing entry `0`, and the effective weights sum to `1`. -/
theorem calculateAirlineRisk_reweights_witness :
    calculateAirlineRisk witnessContext [jurW, finW] DEFAULT_RISK_CONFIG = .ok c4res
    ∧ (c4res.reweighted = some true
      ∧ (∀ e ∈ c4res.breakdown, e.score ≠ none →
          e.effectiveWeight = e.weight / availableWeight c4res.breakdown)
      ∧ (∀ e ∈ c4res.breakdown, e.score = none → e.effectiveWeight = 0)
      ∧ effectiveWeightSum c4res.breakdown = 1) := by
  have hEq : calculateAirlineRisk witnessContext [jurW, finW] DEFAULT_RISK_CONFIG
      = .ok c4res := by
    norm_num [calculateAirlineRisk, aggLoop, aggStep, recordComponent, recordMissing,
      recordAvailable, initAggState, jurW, finW, witnessContext, round1, jsRound,
      scoreToRiskBucket, DEFAULT_RISK_CONFIG, c4res]
    decide
  refine ⟨hEq, calculateAirlineRisk_reweights witnessContext [jurW, finW]
    DEFAULT_RISK_CONFIG c4res hEq ?_ ?_ ?_⟩
  · exact ⟨c4availableEntry, by simp [c4res, c4availableEntry], by simp [c4availableEntry]⟩
  · norm_num [c4res, availableWeight, availableWeight_cons]
  · norm_num [c4res, availableWeight, availableWeight_cons]

/-! ## Scenario and portfolio field lemmas -/

lemma scenarioCore_penalty (rows : List ExposureRow) :
    (scenarioCore rows).concentrationPenalty = sConcentrationPenalty rows := by
  cases rows with
  | nil =>
      show (0 : ℚ) = sConcentrationPenalty []
      norm_num [sConcentrationPenalty, sMaxConcentration, sTotal]
  | cons e t => rfl

lemma scenarioCore_baseRisk (rows : List ExposureRow) :
    (scenarioCore rows).baseRisk = round1 (sBaseRisk rows) := by
  cases rows with
  | nil =>
      show (0 : ℚ) = round1 (sBaseRisk [])
      norm_num [sBaseRisk, sTotal, round1, jsRound]
  | cons e t => rfl

lemma scenarioCore_adjusted (rows : List ExposureRow) :
    (scenarioCore rows).adjustedRisk = round1 (sAdjustedRisk rows) := by
  cases rows with
  | nil =>
      show (0 : ℚ) = round1 (sAdjustedRisk [])
      norm_num [sAdjustedRisk, sBaseRisk, sTotal, sConcentrationPenalty,
        sMaxConcentration, round1, jsRound]
  | cons e t => rfl

lemma scenarioCore_bucket (rows : List ExposureRow) :
    (scenarioCore rows).riskBucket = sRiskBucket rows := by
  cases rows with
  | nil =>
      show RiskBucket.low = sRiskBucket []
      norm_num [sRiskBucket, sAdjustedRisk, sBaseRisk, sTotal,
        sConcentrationPenalty, sMaxConcentration]
  | cons e t => rfl

/-- The `perCurrency` map of the portfolio result is exactly the per-group
computation over the currency grouping (also for the empty portfolio, where
both sides are empty). -/
lemma perCurrency_eq (exposures : List PExposure) :
    (calculatePortfolioRisk exposures).perCurrency
      = (groupByCurrency exposures).map fun cg => (cg.1, calcCurrencyGroup cg.2) := by
  cases exposures <;> rfl

lemma sPenalty_cases (rows : List ExposureRow) :
    sConcentrationPenalty rows = 0 ∨ sConcentrationPenalty rows = 5
      ∨ sConcentrationPenalty rows = 10 := by
  simp only [sConcentrationPenalty]
  split_ifs <;> simp

lemma gPenalty_cases (g : List PExposure) :
    gConcentrationPenalty g = 0 ∨ gConcentrationPenalty g = 5
      ∨ gConcentrationPenalty g = 10 := by
  simp only [gConcentrationPenalty]
  split_ifs <;> simp

lemma round1_min100_penalty (b p : ℚ) (hp : p = 0 ∨ p = 5 ∨ p = 10) :
    round1 (min 100 (b + p)) = min 100 (round1 b + p) := by
  rcases hp with rfl | rfl | rfl
  · simpa using round1_min100_intCast b 0
  · simpa using round1_min100_intCast b 5
  · simpa using round1_min100_intCast b 10

/-! ## Claim C1 — concentration penalty thresholds -/

/-- C1: in both the scenario calculator and every currency group of the
portfolio calculator, the concentration penalty is `0` when the (unrounded)
max concentration is at most `0.5`, `5` when it lies in `(0.5, 0.7]`, and
`10` above `0.7` — both thresholds are exclusive lower bounds, so exactly
`0.5` gives `0` and exactly `0.7` gives `5`. -/
theorem concentrationPenalty_thresholds :
    (∀ input : ScenarioInput,
      (sMaxConcentration (scenarioRows input) ≤ 1/2 →
        (calculateScenarioRisk input).concentrationPenalty = 0)
      ∧ (1/2 < sMaxConcentration (scenarioRows input) ∧
          sMaxConcentration (scenarioRows input) ≤ 7/10 →
        (calculateScenarioRisk input).concentrationPenalty = 5)
      ∧ (7/10 < sMaxConcentration (scenarioRows input) →
        (calculateScenarioRisk input).concentrationPenalty = 10))
    ∧ (∀ (exposures : List PExposure) (c : String) (g : List PExposure),
        (c, g) ∈ groupByCurrency exposures →
        ((gMaxConcentration g ≤ 1/2 → (calcCurrencyGroup g).concentrationPenalty = 0)
        ∧ (1/2 < gMaxConcentration g ∧ gMaxConcentration g ≤ 7/10 →
            (calcCurrencyGroup g).concentrationPenalty = 5)
        ∧ (7/10 < gMaxConcentration g → (calcCurrencyGroup g).concentrationPenalty = 10)))
    ∧ (∀ exposures : List PExposure,
        (calculatePortfolioRisk exposures).perCurrency
          = (groupByCurrency exposures).map fun cg => (cg.1, calcCurrencyGroup cg.2)) := by
  refine ⟨?_, ?_, perCurrency_eq⟩
  · intro input
    rw [show (calculateScenarioRisk input).concentrationPenalty
        = sConcentrationPenalty (scenarioRows input) from scenarioCore_penalty _]
    refine ⟨fun h => ?_, fun h => ?_, fun h => ?_⟩
    · simp only [sConcentrationPenalty]
      split_ifs <;> linarith
    · obtain ⟨h₁, h₂⟩ := h
      simp only [sConcentrationPenalty]
      split_ifs <;> linarith
    · simp only [sConcentrationPenalty]
      split_ifs <;> linarith
  · intro exposures c g _
    refine ⟨fun h => ?_, fun h => ?_, fun h => ?_⟩
    · show gConcentrationPenalty g = 0
      simp only [gConcentrationPenalty]
      split_ifs <;> linarith
    · obtain ⟨h₁, h₂⟩ := h
      show gConcentrationPenalty g = 5
      simp only [gConcentrationPenalty]
      split_ifs <;> linarith
    · show gConcentrationPenalty g = 10
      simp only [gConcentrationPenalty]
      split_ifs <;> linarith

/-- C1 (witness): a 50/50 scenario has max concentration exactly `0.5` and
penalty `0`; a 70/30 currency group has max concentration exactly `0.7` and
penalty `5`. -/
theorem concentrationPenalty_thresholds_witness :
    (calculateScenarioRisk
        { exposures := [halfRowA, halfRowB], currency := "USD" }).concentrationPenalty = 0
    ∧ (calcCurrencyGroup [pEx70, pEx30]).concentrationPenalty = 5 := by
  constructor
  · exact (concentrationPenalty_thresholds.1
      { exposures := [halfRowA, halfRowB], currency := "USD" }).1
      (by norm_num [sMaxConcentration, sMaxExposure, sTotal, scenarioRows,
        halfRowA, halfRowB])
  · exact ((concentrationPenalty_thresholds.2.1 [pEx70, pEx30] "USD" [pEx70, pEx30]
      (by simp [groupByCurrency, pushToGroup, currencyKey, pEx70, pEx30])).2.1
      (by norm_num [gMaxConcentration, gMaxExposure, gTotal, pEx70, pEx30]))

/-! ## Claim C2 — bucket mapping of the portfolio/scenario calculators -/

/-- C2 (counterexample): a single-exposure scenario with base risk `30` and
penalty `10` has adjusted risk exactly `40`, and the calculators bucket it
`Medium` — not `Low` as the `adjustedRisk ≤ 40 → Low` mapping of the
aggregator (`scoreToRiskBucket`) would give. -/
theorem scenario_bucket_at_forty_not_low :
    (calculateScenarioRisk { exposures := [fortyRow], currency := "USD" }).adjustedRisk = 40
    ∧ (calculateScenarioRisk { exposures := [fortyRow], currency := "USD" }).adjustedRisk ≤ 40
    ∧ (calculateScenarioRisk { exposures := [fortyRow], currency := "USD" }).riskBucket
        = RiskBucket.medium
    ∧ (calculateScenarioRisk { exposures := [fortyRow], currency := "USD" }).riskBucket
        ≠ RiskBucket.low := by
  have h : calculateScenarioRisk { exposures := [fortyRow], currency := "USD" }
      = fortyResult := by
    norm_num [calculateScenarioRisk, scenarioCore, scenarioRows, fortyRow, fortyResult,
      sTotal, sWeightedRiskSum, sBaseRisk, sMaxExposure, sMaxConcentration,
      sConcentrationPenalty, sAdjustedRisk, sRiskBucket, sRankedRows,
      sortTopsDesc, insertTopDesc, round1, round2, round3, jsRound]
  rw [h]
  refine ⟨rfl, by norm_num [fortyResult], rfl, by decide⟩

/-- C2 (amended): in both calculators the bucket is derived from the
*unrounded* adjusted risk with *inclusive* lower bounds —
`adjustedRisk ≥ 70 → High`, `≥ 40 → Medium`, else `Low` — so exactly `40`
buckets `Medium` and exactly `70` buckets `High`.  These are not the
aggregator's `scoreToRiskBucket` thresholds, which bucket `40` as `Low` and
`70` as `Medium`. -/
theorem riskBucket_mapping :
    (∀ input : ScenarioInput,
      (calculateScenarioRisk input).riskBucket =
        (if sAdjustedRisk (scenarioRows input) ≥ 70 then RiskBucket.high
         else if sAdjustedRisk (scenarioRows input) ≥ 40 then RiskBucket.medium
         else RiskBucket.low))
    ∧ (∀ g : List PExposure,
        (calcCurrencyGroup g).riskBucket =
          (if gAdjustedRisk g ≥ 70 then RiskBucket.high
           else if gAdjustedRisk g ≥ 40 then RiskBucket.medium
           else RiskBucket.low))
    ∧ (∀ exposures : List PExposure,
        (calculatePortfolioRisk exposures).perCurrency
          = (groupByCurrency exposures).map fun cg => (cg.1, calcCurrencyGroup cg.2))
    ∧ scoreToRiskBucket 40 DEFAULT_RISK_CONFIG = RiskBucket.low
    ∧ scoreToRiskBucket 70 DEFAULT_RISK_CONFIG = RiskBucket.medium := by
  refine ⟨?_, fun g => rfl, perCurrency_eq, ?_, ?_⟩
  · intro input
    rw [show (calculateScenarioRisk input).riskBucket
        = sRiskBucket (scenarioRows input) from scenarioCore_bucket _]
    rfl
  · norm_num [scoreToRiskBucket, DEFAULT_RISK_CONFIG]
  · norm_num [scoreToRiskBucket, DEFAULT_RISK_CONFIG]

/-! ## Claim C9 — adjusted risk is the capped sum -/

/-- C9: in both calculators the reported `adjustedRisk` equals
`min(100, baseRisk + concentrationPenalty)` over the reported fields, and is
therefore never above `100`, however large the sum is. -/
theorem adjustedRisk_clamped :
    (∀ input : ScenarioInput,
      (calculateScenarioRisk input).adjustedRisk
        = min 100 ((calculateScenarioRisk input).baseRisk
            + (calculateScenarioRisk input).concentrationPenalty)
      ∧ (calculateScenarioRisk input).adjustedRisk ≤ 100)
    ∧ (∀ g : List PExposure,
        (calcCurrencyGroup g).adjustedRisk
          = min 100 ((calcCurrencyGroup g).baseRisk
              + (calcCurrencyGroup g).concentrationPenalty)
        ∧ (calcCurrencyGroup g).adjustedRisk ≤ 100)
    ∧ (∀ exposures : List PExposure,
        (calculatePortfolioRisk exposures).perCurrency
          = (groupByCurrency exposures).map fun cg => (cg.1, calcCurrencyGroup cg.2)) := by
  refine ⟨?_, ?_, perCurrency_eq⟩
  · intro input
    have h : (calculateScenarioRisk input).adjustedRisk
        = min 100 ((calculateScenarioRisk input).baseRisk
            + (calculateScenarioRisk input).concentrationPenalty) := by
      simp only [calculateScenarioRisk]
      rw [scenarioCore_adjusted, scenarioCore_baseRisk, scenarioCore_penalty]
      exact round1_min100_penalty _ _ (sPenalty_cases _)
    exact ⟨h, h ▸ min_le_left _ _⟩
  · intro g
    have h : (calcCurrencyGroup g).adjustedRisk
        = min 100 ((calcCurrencyGroup g).baseRisk
            + (calcCurrencyGroup g).concentrationPenalty) := by
      show round1 (gAdjustedRisk g)
        = min 100 (round1 (gBaseRisk g) + gConcentrationPenalty g)
      exact round1_min100_penalty _ _ (gPenalty_cases _)
    exact ⟨h, h ▸ min_le_left _ _⟩

/-! ## Claim C10 — zero/negative override excludes the row -/

lemma filter_override_remove (m : ScenarioModification) (hm : m.newExposure ≤ 0)
    (l : List ExposureRow) :
    (overrideFirst m l).filter (fun e => e.exposure > 0)
      = (removeFirstByIcao m.airlineIcao l).filter (fun e => e.exposure > 0) := by
  induction l with
  | nil => rfl
  | cons e t ih =>
      by_cases h : e.airlineIcao = m.airlineIcao
      · simp only [overrideFirst, removeFirstByIcao, if_pos h]
        rw [List.filter_cons_of_neg]
        simp only [decide_eq_true_eq, not_lt]
        exact hm
      · simp only [overrideFirst, removeFirstByIcao, if_neg h]
        rw [List.filter_cons, List.filter_cons, ih]

/-- C10: a modification that sets the targeted airline's exposure to a
non-positive value gives exactly the scenario result of the remaining rows
(the override is applied before the `exposure > 0` filter, so the row is
excluded from every reported figure); and whenever no rows survive the
filter the result is the zero record — totals, risks and penalty `0`,
bucket `Low`, no top exposures — with no exception. -/
theorem scenario_zero_override_excludes :
    (∀ (input : ScenarioInput) (m : ScenarioModification),
      input.modification = some m → m.newExposure ≤ 0 →
      (∃ e ∈ input.exposures, e.airlineIcao = m.airlineIcao) →
      calculateScenarioRisk input
        = calculateScenarioRisk
            { exposures := removeFirstByIcao m.airlineIcao input.exposures,
              currency := input.currency, modification := none })
    ∧ (∀ input : ScenarioInput, scenarioRows input = [] →
        calculateScenarioRisk input =
          { totalExposure := 0, baseRisk := 0, adjustedRisk := 0,
            concentrationPenalty := 0, maxConcentration := 0,
            riskBucket := .low, topExposures := [] }) := by
  constructor
  · intro input m hmod hm _
    unfold calculateScenarioRisk
    congr 1
    simp only [scenarioRows, hmod]
    exact filter_override_remove m hm input.exposures
  · intro input h
    unfold calculateScenarioRisk
    rw [h]
    rfl

/-- C10 (witness): overriding `AAA` to exposure `0` in a two-row scenario
equals the scenario on the remaining row, and a one-row scenario overridden
to `-5` filters down to nothing and returns the zero result. -/
theorem scenario_zero_override_excludes_witness :
    calculateScenarioRisk
        { exposures := [halfRowA, halfRowB], currency := "USD",
          modification := some { airlineIcao := "AAA", newExposure := 0 } }
      = calculateScenarioRisk
          { exposures := removeFirstByIcao "AAA" [halfRowA, halfRowB],
            currency := "USD", modification := none }
    ∧ calculateScenarioRisk
        { exposures := [halfRowA], currency := "USD",
          modification := some { airlineIcao := "AAA", newExposure := -5 } }
      = { totalExposure := 0, baseRisk := 0, adjustedRisk := 0,
          concentrationPenalty := 0, maxConcentration := 0,
          riskBucket := .low, topExposures := [] } := by
  constructor
  · exact scenario_zero_override_excludes.1
      { exposures := [halfRowA, halfRowB], currency := "USD",
        modification := some { airlineIcao := "AAA", newExposure := 0 } }
      { airlineIcao := "AAA", newExposure := 0 } rfl (by norm_num)
      ⟨halfRowA, by simp, by simp [halfRowA]⟩
  · refine scenario_zero_override_excludes.2
      { exposures := [halfRowA], currency := "USD",
        modification := some { airlineIcao := "AAA", newExposure := -5 } } ?_
    norm_num [scenarioRows, overrideFirst, halfRowA]

/-! ## Claim C8 — the scenario calculator mutates nothing

`calculateScenarioRisk` starts from `[...input.exposures]`, a fresh array
sharing the row references, so the input array itself is never written (in
the embedding the input reference list is plain immutable data for the same
reason).  What remains to verify over the heap embedding: the call only
*allocates* — every pre-existing row object is unchanged in the final heap
(targeted or not: the override writes a spread copy into the copied array) —
and every position other than the overridden index still holds the identical
reference. -/

/-- C8: after running the scenario calculator over the row heap, (i) every
pre-existing row object is exactly as before — the heap is only extended by
the override's fresh copy — and (ii) every index the modification does not
target still refers to the same row object as the input array. -/
theorem scenario_no_mutation (input : ScenarioInputRefs) (h : RowHeap) :
    (∀ r : ℕ, r < h.length → ((calculateScenarioRiskH input h).2)[r]? = h[r]?)
    ∧ (∀ i : ℕ, (∀ j, modTargetIdx input h = some j → i ≠ j) →
        ((applyModRefs input h).1)[i]? = (input.exposures)[i]?) := by
  constructor
  · intro r hr
    show ((applyModRefs input h).2)[r]? = h[r]?
    unfold applyModRefs
    cases hmod : input.modification with
    | none => rfl
    | some m =>
        cases htgt : modTargetIdx input h with
        | none => simp only [htgt]
        | some i =>
            simp only [htgt]
            rw [List.getElem?_append]
            rw [if_pos hr]
  · intro i hi
    unfold applyModRefs
    cases hmod : input.modification with
    | none => rfl
    | some m =>
        cases htgt : modTargetIdx input h with
        | none => simp only [htgt]
        | some j =>
            simp only [htgt]
            exact List.getElem?_set_ne (Ne.symm (hi j htgt))

/-- C8 (witness): with the override targeting index `1`, the object at heap
slot `0` is untouched and position `0` of the working array still holds
reference `0`. -/
theorem scenario_no_mutation_witness :
    ((calculateScenarioRiskH c8Input c8Heap).2)[0]? = c8Heap[0]?
    ∧ ((applyModRefs c8Input c8Heap).1)[0]? = (c8Input.exposures)[0]? := by
  have hmt : modTargetIdx c8Input c8Heap = some 1 := by
    decide
  refine ⟨(scenario_no_mutation c8Input c8Heap).1 0 (by norm_num [c8Heap]),
    (scenario_no_mutation c8Input c8Heap).2 0 ?_⟩
  intro j hj
  rw [hmt] at hj
  obtain rfl := Option.some.inj hj
  decide
